import Mathlib

/-!
A shallow embedding of the confession-bot core from src/main.py.

Database tables are embedded as association lists whose first component is
the row key, SQL statements as total functions on those lists, and each
aiogram handler as a pure state-transition function.  Telegram transport
calls are modelled by their observable effect: an outbox of
(recipient, message) pairs, a list of channel posts, or an Except error
when the underlying call raises.  Creation timestamps are represented by
list order, so ORDER BY created_at ASC is the stored order.
-/

namespace Confessions

/-- Aura credited to the author when a confession is published
(src/main.py line 55). -/
def POINTS_PER_CONFESSION : Int := 1

/-- Aura the comment author receives for a like (line 56). -/
def POINTS_PER_LIKE_RECEIVED : Int := 3

/-- Aura the comment author receives for a dislike (line 57). -/
def POINTS_PER_DISLIKE_RECEIVED : Int := -3

/-- Comment page size (line 59). -/
def PAGE_SIZE : Nat := 15

/-- Banned substrings checked on submission (line 60). -/
def BANNED_WORDS : List String := ["scam", "nude", "hack", "t.me/", "telegram.me"]

/-- SELECT of the first row with the given key (asyncpg fetchval). -/
def rowsLookup {α β : Type} [DecidableEq α] : List (α × β) → α → Option β
  | [], _ => none
  | kv :: rest, k => if kv.1 = k then some kv.2 else rowsLookup rest k

/-- SQL UPDATE applied to every row with the given key; rows with other
keys are untouched, a missing key leaves the table unchanged. -/
def rowsUpdate {α β : Type} [DecidableEq α] (f : β → β) (l : List (α × β)) (k : α) :
    List (α × β) :=
  l.map (fun kv => if kv.1 = k then (kv.1, f kv.2) else kv)

/-- SQL DELETE of every row with the given key. -/
def rowsDelete {α β : Type} [DecidableEq α] : List (α × β) → α → List (α × β)
  | [], _ => []
  | kv :: rest, k => if kv.1 = k then rowsDelete rest k else kv :: rowsDelete rest k

/-- Number of rows with the given key. -/
def countKey {α β : Type} [DecidableEq α] : List (α × β) → α → Nat
  | [], _ => 0
  | kv :: rest, k => (if kv.1 = k then 1 else 0) + countKey rest k

/-- INSERT ... ON CONFLICT (key) DO UPDATE SET value. -/
def rowsUpsert {α β : Type} [DecidableEq α] (l : List (α × β)) (k : α) (v : β) :
    List (α × β) :=
  if (rowsLookup l k).isSome then rowsUpdate (fun _ => v) l k else l ++ [(k, v)]

/-- The bare ledger statement UPDATE user_points SET points = points + d
WHERE user_id = uid (no row is inserted when the user has none). -/
def applyDelta (points : List (Int × Int)) (uid : Int) (d : Int) : List (Int × Int) :=
  rowsUpdate (fun p => p + d) points uid

lemma rowsLookup_rowsUpdate_self {α β : Type} [DecidableEq α] (f : β → β)
    (l : List (α × β)) (k : α) :
    rowsLookup (rowsUpdate f l k) k = (rowsLookup l k).map f := by
  induction l with
  | nil => simp [rowsLookup, rowsUpdate]
  | cons kv rest ih =>
    by_cases h : kv.1 = k
    · simp [rowsUpdate, rowsLookup, h]
    · simp only [rowsUpdate, List.map_cons, if_neg h] at ih ⊢
      simp only [rowsLookup, if_neg h]
      exact ih

lemma rowsUpdate_eq_of_lookup_none {α β : Type} [DecidableEq α] (f : β → β)
    (l : List (α × β)) (k : α) (h : rowsLookup l k = none) :
    rowsUpdate f l k = l := by
  induction l with
  | nil => simp [rowsUpdate]
  | cons kv rest ih =>
    by_cases hk : kv.1 = k
    · simp [rowsLookup, hk] at h
    · simp only [rowsLookup, if_neg hk] at h
      simp only [rowsUpdate, List.map_cons, if_neg hk] at ih ⊢
      rw [ih h]

lemma rowsLookup_rowsDelete_self {α β : Type} [DecidableEq α]
    (l : List (α × β)) (k : α) :
    rowsLookup (rowsDelete l k) k = none := by
  induction l with
  | nil => simp [rowsLookup, rowsDelete]
  | cons kv rest ih =>
    by_cases h : kv.1 = k
    · simpa [rowsDelete, h] using ih
    · simpa [rowsDelete, rowsLookup, h] using ih

lemma countKey_rowsDelete_self {α β : Type} [DecidableEq α]
    (l : List (α × β)) (k : α) :
    countKey (rowsDelete l k) k = 0 := by
  induction l with
  | nil => simp [countKey, rowsDelete]
  | cons kv rest ih =>
    by_cases h : kv.1 = k
    · simpa [rowsDelete, h] using ih
    · simpa [rowsDelete, countKey, h] using ih

lemma countKey_rowsUpdate {α β : Type} [DecidableEq α] (f : β → β)
    (l : List (α × β)) (k k2 : α) :
    countKey (rowsUpdate f l k) k2 = countKey l k2 := by
  induction l with
  | nil => simp [countKey, rowsUpdate]
  | cons kv rest ih =>
    by_cases h : kv.1 = k
    · simp only [rowsUpdate, List.map_cons, if_pos h] at ih ⊢
      simp only [countKey]
      rw [ih]
    · simp only [rowsUpdate, List.map_cons, if_neg h] at ih ⊢
      simp only [countKey]
      rw [ih]

lemma countKey_append_single_self {α β : Type} [DecidableEq α]
    (l : List (α × β)) (k : α) (v : β) :
    countKey (l ++ [(k, v)]) k = countKey l k + 1 := by
  induction l with
  | nil => simp [countKey]
  | cons kv rest ih =>
    simp only [List.cons_append, countKey, List.append_eq]
    rw [ih]
    omega

lemma countKey_eq_zero_of_lookup_none {α β : Type} [DecidableEq α]
    (l : List (α × β)) (k : α) (h : rowsLookup l k = none) :
    countKey l k = 0 := by
  induction l with
  | nil => simp [countKey]
  | cons kv rest ih =>
    by_cases hk : kv.1 = k
    · simp [rowsLookup, hk] at h
    · simp only [rowsLookup, if_neg hk] at h
      simp only [countKey, if_neg hk, ih h]

lemma countKey_pos_of_lookup_some {α β : Type} [DecidableEq α]
    (l : List (α × β)) (k : α) (v : β) (h : rowsLookup l k = some v) :
    1 ≤ countKey l k := by
  induction l with
  | nil => simp [rowsLookup] at h
  | cons kv rest ih =>
    by_cases hk : kv.1 = k
    · simp only [countKey, if_pos hk]
      omega
    · simp only [rowsLookup, if_neg hk] at h
      simp only [countKey, if_neg hk]
      have := ih h
      omega

lemma rowsLookup_append_of_none {α β : Type} [DecidableEq α]
    (l m : List (α × β)) (k : α) (h : rowsLookup l k = none) :
    rowsLookup (l ++ m) k = rowsLookup m k := by
  induction l with
  | nil => simp
  | cons kv rest ih =>
    by_cases hk : kv.1 = k
    · simp [rowsLookup, hk] at h
    · simp only [rowsLookup, if_neg hk] at h
      simpa [rowsLookup, hk] using ih h

lemma rowsLookup_rowsUpsert_self {α β : Type} [DecidableEq α]
    (l : List (α × β)) (k : α) (v : β) :
    rowsLookup (rowsUpsert l k v) k = some v := by
  unfold rowsUpsert
  cases hl : rowsLookup l k with
  | none =>
    simp only [hl, Option.isSome_none, Bool.false_eq_true, if_false]
    rw [rowsLookup_append_of_none _ _ _ hl]
    simp [rowsLookup]
  | some w =>
    simp only [hl, Option.isSome_some, if_true]
    rw [rowsLookup_rowsUpdate_self]
    simp [hl]

lemma countKey_rowsUpsert_self {α β : Type} [DecidableEq α]
    (l : List (α × β)) (k : α) (v : β) (h : countKey l k ≤ 1) :
    countKey (rowsUpsert l k v) k = 1 := by
  unfold rowsUpsert
  cases hl : rowsLookup l k with
  | none =>
    simp only [hl, Option.isSome_none, Bool.false_eq_true, if_false]
    rw [countKey_append_single_self, countKey_eq_zero_of_lookup_none _ _ hl]
  | some w =>
    simp only [hl, Option.isSome_some, if_true]
    rw [countKey_rowsUpdate]
    have := countKey_pos_of_lookup_some _ _ _ hl
    omega

lemma rowsLookup_applyDelta_self (points : List (Int × Int)) (uid d : Int) :
    rowsLookup (applyDelta points uid d) uid =
      (rowsLookup points uid).map (fun p => p + d) :=
  rowsLookup_rowsUpdate_self _ _ _

lemma applyDelta_of_lookup_none (points : List (Int × Int)) (uid d : Int)
    (h : rowsLookup points uid = none) : applyDelta points uid d = points :=
  rowsUpdate_eq_of_lookup_none _ _ _ h

/-- MODULE 2, src/main.py lines 83-89: title derived from the aura balance.
The decorative emoji suffixes of the source strings are elided. -/
def get_reputation_title (points : Int) : String :=
  if points ≥ 500 then "Legend"
  else if points ≥ 201 then "Wise Elder"
  else if points ≥ 51 then "Truth Teller"
  else if points ≥ 0 then "Newbie"
  else "Troublemaker"

/-- C9 counterexample: the claim says a balance of exactly 200 is high
tier and exactly 50 is mid tier, but get_reputation_title uses the
cutoffs 201 and 51, so 200 is mid tier and 50 is base tier. -/
theorem C9_titles_cx :
    get_reputation_title 200 = "Truth Teller"
    ∧ get_reputation_title 201 = "Wise Elder"
    ∧ get_reputation_title 50 = "Newbie"
    ∧ get_reputation_title 51 = "Truth Teller"
    ∧ ¬ get_reputation_title 200 = "Wise Elder"
    ∧ ¬ get_reputation_title 50 = "Truth Teller" := by decide

/-- C9 amended: the derived title follows the thresholds of the code:
at least 500 gives the top tier, at least 201 the high tier, at least 51
the mid tier, at least 0 the base tier, and below 0 the penalized tier
(so a balance of exactly 200 is mid tier and exactly 50 is base tier). -/
theorem C9_titles_amended : ∀ (p : Int),
    (500 ≤ p → get_reputation_title p = "Legend")
    ∧ (201 ≤ p → p < 500 → get_reputation_title p = "Wise Elder")
    ∧ (51 ≤ p → p < 201 → get_reputation_title p = "Truth Teller")
    ∧ (0 ≤ p → p < 51 → get_reputation_title p = "Newbie")
    ∧ (p < 0 → get_reputation_title p = "Troublemaker") := by
  intro p
  unfold get_reputation_title
  refine ⟨fun h => ?_, fun h1 h2 => ?_, fun h1 h2 => ?_, fun h1 h2 => ?_, fun h => ?_⟩
  · rw [if_pos (by omega : p ≥ 500)]
  · rw [if_neg (by omega : ¬ p ≥ 500), if_pos (by omega : p ≥ 201)]
  · rw [if_neg (by omega : ¬ p ≥ 500), if_neg (by omega : ¬ p ≥ 201),
      if_pos (by omega : p ≥ 51)]
  · rw [if_neg (by omega : ¬ p ≥ 500), if_neg (by omega : ¬ p ≥ 201),
      if_neg (by omega : ¬ p ≥ 51), if_pos (by omega : p ≥ 0)]
  · rw [if_neg (by omega : ¬ p ≥ 500), if_neg (by omega : ¬ p ≥ 201),
      if_neg (by omega : ¬ p ≥ 51), if_neg (by omega : ¬ p ≥ 0)]

/-- C9 amended witness: every tier of the amended theorem is inhabited. -/
theorem C9_titles_amended_witness :
    get_reputation_title 600 = "Legend"
    ∧ get_reputation_title 300 = "Wise Elder"
    ∧ get_reputation_title 100 = "Truth Teller"
    ∧ get_reputation_title 10 = "Newbie"
    ∧ get_reputation_title (-5) = "Troublemaker" :=
  ⟨(C9_titles_amended 600).1 (by decide),
   (C9_titles_amended 300).2.1 (by decide) (by decide),
   (C9_titles_amended 100).2.2.1 (by decide) (by decide),
   (C9_titles_amended 10).2.2.2.1 (by decide) (by decide),
   (C9_titles_amended (-5)).2.2.2.2 (by decide)⟩

/-- A row of the confessions table (src/main.py lines 117-125, plus the
rejection_reason column written by process_rejection on line 511). -/
structure Confession where
  id : Nat
  text : String
  user_id : Int
  status : String
  message_id : Option Nat
  rejection_reason : Option String
  categories : List String
deriving DecidableEq

/-- Python str.lower applied character-wise, as in line 241. -/
def lowerStr (s : String) : String := String.mk (s.data.map Char.toLower)

/-- Python substring containment, needle in hay. -/
def containsSub (needle hay : String) : Bool :=
  decide (needle.data <:+: hay.data)

/-- Line 242: any(word in text_low for word in BANNED_WORDS). -/
def bannedHit (text : String) : Bool :=
  BANNED_WORDS.any (fun w => containsSub w (lowerStr text))

/-- State touched by the submission handler: the confessions table and
the SERIAL id counter. -/
structure SubmitState where
  confessions : List Confession
  nextConfId : Nat
deriving DecidableEq

inductive SubmitOutcome where
  | tooShort
  | prohibited
  | created (confId : Nat)
deriving DecidableEq

/-- Reply of line 238 (emoji elided). -/
def tooShortNotice : String :=
  "Your confession is too short. Please add more detail (min 10 characters)."

/-- Reply of line 243. -/
def flaggedNotice : String :=
  "Your post was flagged for containing prohibited links or banned words."

/-- Reply of lines 256-259. -/
def submittedNotice (confId : Nat) : String :=
  "Confession #" ++ toString confId ++
    " submitted! It has been sent to the moderation team."

/-- Moderation message of lines 266-273 (markup elided). -/
def adminNewSubmissionMsg (confId : Nat) (cats : List String) (uid : Int)
    (text : String) : String :=
  "New Submission #" ++ toString confId ++ "\nCategories: " ++
    String.intercalate ", " cats ++ "\nUser UID: " ++ toString uid ++
    "\n\n" ++ text

/-- src/main.py lines 235-273, handle_confession_submission: length gate,
banned-word gate, INSERT of a pending confession, confirmation to the
author, and a single moderation notification sent to the global ADMIN_ID.
The globals ADMIN_IDS (the runtime moderator set) and ADMIN_ID are passed
as the parameters adminIds and adminId; the handler reads only adminId.
The returned triple is (new state, outcome, outbox of (recipient, text)). -/
def handle_confession_submission (s : SubmitState) (uid : Int) (text : String)
    (cats : List String) (adminIds : List Int) (adminId : Int) :
    SubmitState × SubmitOutcome × List (Int × String) :=
  if text.length < 10 then
    (s, SubmitOutcome.tooShort, [(uid, tooShortNotice)])
  else if bannedHit text then
    (s, SubmitOutcome.prohibited, [(uid, flaggedNotice)])
  else
    let confId := s.nextConfId
    let conf : Confession :=
      { id := confId, text := text, user_id := uid, status := "pending",
        message_id := none, rejection_reason := none, categories := cats }
    ({ confessions := s.confessions ++ [conf], nextConfId := confId + 1 },
     SubmitOutcome.created confId,
     [(uid, submittedNotice confId),
      (adminId, adminNewSubmissionMsg confId cats uid text)])

/-- C8: a text shorter than 10 characters is rejected as too short; a text
containing a banned substring case-insensitively is rejected as
prohibited; otherwise a new pending Submission with the chosen categories
is persisted and its identifier is returned to the author. -/
theorem C8_submit_validation :
    ∀ (s : SubmitState) (uid : Int) (text : String) (cats : List String)
      (adminIds : List Int) (adminId : Int),
    (text.length < 10 →
      handle_confession_submission s uid text cats adminIds adminId =
        (s, SubmitOutcome.tooShort, [(uid, tooShortNotice)]))
    ∧ (10 ≤ text.length →
       (∃ w ∈ BANNED_WORDS, w.data <:+: (lowerStr text).data) →
      handle_confession_submission s uid text cats adminIds adminId =
        (s, SubmitOutcome.prohibited, [(uid, flaggedNotice)]))
    ∧ (10 ≤ text.length →
       (∀ w ∈ BANNED_WORDS, ¬ w.data <:+: (lowerStr text).data) →
      handle_confession_submission s uid text cats adminIds adminId =
        ({ confessions := s.confessions ++
             [{ id := s.nextConfId, text := text, user_id := uid,
                status := "pending", message_id := none,
                rejection_reason := none, categories := cats }],
           nextConfId := s.nextConfId + 1 },
         SubmitOutcome.created s.nextConfId,
         [(uid, submittedNotice s.nextConfId),
          (adminId, adminNewSubmissionMsg s.nextConfId cats uid text)])) := by
  intro s uid text cats adminIds adminId
  refine ⟨fun hshort => ?_, fun hlen hban => ?_, fun hlen hok => ?_⟩
  · simp [handle_confession_submission, hshort]
  · have hb : bannedHit text = true := by
      simp only [bannedHit, List.any_eq_true]
      obtain ⟨w, hw, hwin⟩ := hban
      exact ⟨w, hw, decide_eq_true hwin⟩
    simp [handle_confession_submission, hb, Nat.not_lt.mpr hlen]
  · have hb : bannedHit text = false := by
      simp only [bannedHit, List.any_eq_false]
      intro w hw
      exact fun hc => hok w hw (of_decide_eq_true hc)
    simp [handle_confession_submission, hb, Nat.not_lt.mpr hlen]

/-- C8 witness: the three branches of the validation theorem at concrete
inputs: a 9-character text, a long text containing SCAM, and a clean text. -/
theorem C8_submit_validation_witness :
    handle_confession_submission ⟨[], 1⟩ 42 "short one" ["School"] [1] 1 =
      (⟨[], 1⟩, SubmitOutcome.tooShort, [(42, tooShortNotice)])
    ∧ handle_confession_submission ⟨[], 1⟩ 42 "i am running a SCAM here" ["School"] [1] 1 =
      (⟨[], 1⟩, SubmitOutcome.prohibited, [(42, flaggedNotice)])
    ∧ handle_confession_submission ⟨[], 1⟩ 42 "a perfectly fine confession" ["School"] [1] 1 =
      ({ confessions :=
           [{ id := 1, text := "a perfectly fine confession", user_id := 42,
              status := "pending", message_id := none,
              rejection_reason := none, categories := ["School"] }],
         nextConfId := 2 },
       SubmitOutcome.created 1,
       [(42, submittedNotice 1),
        (1, adminNewSubmissionMsg 1 ["School"] 42 "a perfectly fine confession")]) :=
  ⟨(C8_submit_validation ⟨[], 1⟩ 42 "short one" ["School"] [1] 1).1 (by decide),
   (C8_submit_validation ⟨[], 1⟩ 42 "i am running a SCAM here" ["School"] [1] 1).2.1
     (by decide) (by decide),
   (C8_submit_validation ⟨[], 1⟩ 42 "a perfectly fine confession" ["School"] [1] 1).2.2
     (by decide) (by decide)⟩

/-- Concrete submission state for the moderation fan-out counterexample. -/
def c6state : SubmitState := ⟨[], 1⟩

/-- Outbox of a successful submission while the moderator set ADMIN_IDS
is [1, 2] and the fixed ADMIN_ID is 1. -/
def c6outbox : List (Int × String) :=
  (handle_confession_submission c6state 42 "a long enough confession"
    ["School"] [1, 2] 1).2.2

/-- C6 counterexample: with moderator set [1, 2], the moderation
notification of a new pending submission reaches only the fixed
ADMIN_ID 1; moderator 2 receives nothing, refuting delivery to every
entry of the moderator set. -/
theorem C6_single_admin_cx :
    c6outbox.map Prod.fst = [42, 1]
    ∧ ((2 : Int) ∈ c6outbox.map Prod.fst → False) := by decide

/-- C6 amended: the moderation notification of a newly persisted pending
submission is sent to the single fixed ADMIN_ID only; the outbox is
independent of the moderator set, and its recipients on success are
exactly the author and ADMIN_ID. -/
theorem C6_notify_amended :
    ∀ (s : SubmitState) (uid : Int) (text : String) (cats : List String)
      (ids ids2 : List Int) (adminId : Int),
    handle_confession_submission s uid text cats ids adminId =
      handle_confession_submission s uid text cats ids2 adminId
    ∧ (10 ≤ text.length → bannedHit text = false →
       (handle_confession_submission s uid text cats ids adminId).2.2.map Prod.fst =
         [uid, adminId]) := by
  intro s uid text cats ids ids2 adminId
  constructor
  · simp [handle_confession_submission]
  · intro hlen hb
    simp [handle_confession_submission, hb, Nat.not_lt.mpr hlen]

/-- C6 amended witness: the recipient list of a concrete successful
submission is exactly the author and the fixed admin. -/
theorem C6_notify_amended_witness :
    (handle_confession_submission ⟨[], 5⟩ 77 "another fine confession"
      ["Family"] [1, 2, 3] 1).2.2.map Prod.fst = [77, 1] :=
  (C6_notify_amended ⟨[], 5⟩ 77 "another fine confession" ["Family"]
    [1, 2, 3] [1, 2, 3] 1).2 (by decide) (by decide)

/-- State touched by the moderation decision handlers: the confessions
table, the user_points table, the public channel (list of
(message_id, post text) pairs plus the transport's next message id), and
the outbox of direct user messages. -/
structure ModState where
  confessions : List Confession
  points : List (Int × Int)
  channelPosts : List (Nat × String)
  nextMsgId : Nat
  userMsgs : List (Int × String)
deriving DecidableEq

/-- SELECT ... FROM confessions WHERE id = confId (first row). -/
def findConf (s : ModState) (confId : Nat) : Option Confession :=
  s.confessions.find? (fun c => decide (c.id = confId))

/-- UPDATE confessions SET ... WHERE id = confId, with the per-row change
given by f. -/
def updateConf (l : List Confession) (confId : Nat) (f : Confession → Confession) :
    List Confession :=
  l.map (fun c => if c.id = confId then f c else c)

/-- Channel post composed on lines 466-470 (markup elided). -/
def channelPostText (confId : Nat) (cats : List String) (text : String) : String :=
  "Confession #" ++ toString confId ++ "\nCategories: " ++
    String.intercalate ", " cats ++ "\n\n" ++ text

/-- Author notice of line 489.  Modelled from the spec: safe_send_message
is called throughout src/main.py but defined nowhere in it; per the spec
(section 4.2 and 7) it is a best-effort direct send whose delivery
failures are swallowed, so it is embedded as an outbox append. -/
def approvedNotice (confId : Nat) : String :=
  "Great news! Your confession #" ++ toString confId ++
    " was approved and posted to the channel."

/-- Author notice of line 515 (same safe_send_message modelling). -/
def rejectedNotice (confId : Nat) (reason : String) : String :=
  "Submission Update: Your confession #" ++ toString confId ++
    " was not approved. Reason: " ++ reason

/-- src/main.py lines 453-489, approve_submission: an unconditional
UPDATE to status approved RETURNING the row, then (when the row exists) a
channel post, a second UPDATE storing the channel message id, a bare
ledger UPDATE crediting the author, and the author notice.  publishOk
models whether bot.send_message to the channel succeeds; when it raises,
the handler aborts right after the status UPDATE, so neither message_id
nor the ledger nor the notice is written.  There is no guard on the
previous status. -/
def approve_submission (publishOk : Bool) (s : ModState) (confId : Nat) : ModState :=
  let afterStatus := updateConf s.confessions confId
    (fun c => { c with status := "approved" })
  match findConf s confId with
  | none => { s with confessions := afterStatus }
  | some row =>
    if publishOk then
      { confessions := updateConf afterStatus confId
          (fun c => { c with message_id := some s.nextMsgId }),
        points := applyDelta s.points row.user_id POINTS_PER_CONFESSION,
        channelPosts := s.channelPosts ++
          [(s.nextMsgId, channelPostText confId row.categories row.text)],
        nextMsgId := s.nextMsgId + 1,
        userMsgs := s.userMsgs ++ [(row.user_id, approvedNotice confId)] }
    else { s with confessions := afterStatus }

/-- src/main.py lines 502-515, process_rejection: an unconditional UPDATE
to status rejected with the reason, RETURNING user_id for the notice.
message_id is never cleared. -/
def process_rejection (s : ModState) (confId : Nat) (reason : String) : ModState :=
  let afterUpdate := updateConf s.confessions confId
    (fun c => { c with status := "rejected", rejection_reason := some reason })
  match findConf s confId with
  | none => { s with confessions := afterUpdate }
  | some row =>
    { s with confessions := afterUpdate,
             userMsgs := s.userMsgs ++ [(row.user_id, rejectedNotice confId reason)] }

/-- Status column of the confession, when the row exists. -/
def statusOf (s : ModState) (confId : Nat) : Option String :=
  (findConf s confId).map Confession.status

/-- message_id column (the public message handle), when the row exists. -/
def publicRefOf (s : ModState) (confId : Nat) : Option (Option Nat) :=
  (findConf s confId).map Confession.message_id

lemma find?_updateConf_some (l : List Confession) (n : Nat)
    (f : Confession → Confession) (hf : ∀ c, (f c).id = c.id) (row : Confession)
    (h : l.find? (fun c => decide (c.id = n)) = some row) :
    (updateConf l n f).find? (fun c => decide (c.id = n)) = some (f row) := by
  induction l with
  | nil => simp [List.find?] at h
  | cons a as ih =>
    by_cases ha : a.id = n
    · rw [List.find?_cons_of_pos _ (by simp [ha])] at h
      obtain rfl : a = row := by simpa using h
      simp only [updateConf, List.map_cons, if_pos ha]
      exact List.find?_cons_of_pos _ (by simp [hf, ha])
    · rw [List.find?_cons_of_neg _ (by simp [ha])] at h
      simp only [updateConf, List.map_cons, if_neg ha]
      rw [List.find?_cons_of_neg _ (by simp [ha])]
      exact ih h

lemma approve_submission_true_of_found (s : ModState) (confId : Nat)
    (row : Confession) (h : findConf s confId = some row) :
    approve_submission true s confId =
      { confessions := updateConf
          (updateConf s.confessions confId (fun c => { c with status := "approved" }))
          confId (fun c => { c with message_id := some s.nextMsgId }),
        points := applyDelta s.points row.user_id POINTS_PER_CONFESSION,
        channelPosts := s.channelPosts ++
          [(s.nextMsgId, channelPostText confId row.categories row.text)],
        nextMsgId := s.nextMsgId + 1,
        userMsgs := s.userMsgs ++ [(row.user_id, approvedNotice confId)] } := by
  simp [approve_submission, h]

lemma approve_submission_false_of_found (s : ModState) (confId : Nat)
    (row : Confession) (h : findConf s confId = some row) :
    approve_submission false s confId =
      { s with
          confessions :=
            updateConf s.confessions confId
              (fun c => { c with status := "approved" }) } := by
  simp [approve_submission, h]

lemma findConf_approve_true (s : ModState) (confId : Nat) (row : Confession)
    (h : findConf s confId = some row) :
    findConf (approve_submission true s confId) confId =
      some { row with status := "approved", message_id := some s.nextMsgId } := by
  rw [approve_submission_true_of_found s confId row h]
  show (updateConf (updateConf s.confessions confId _) confId _).find? _ = _
  have h1 := find?_updateConf_some s.confessions confId
    (fun c => { c with status := "approved" }) (fun c => rfl) row h
  exact find?_updateConf_some _ confId
    (fun c => { c with message_id := some s.nextMsgId }) (fun c => rfl) _ h1

lemma findConf_process_rejection (s : ModState) (confId : Nat) (row : Confession)
    (reason : String) (h : findConf s confId = some row) :
    findConf (process_rejection s confId reason) confId =
      some { row with status := "rejected", rejection_reason := some reason } := by
  have h1 := find?_updateConf_some s.confessions confId
    (fun c => { c with status := "rejected", rejection_reason := some reason })
    (fun c => rfl) row h
  simp only [process_rejection, h]
  exact h1

/-- Pending confession used by the decision counterexamples. -/
def c1conf : Confession :=
  { id := 1, text := "a fine confession text", user_id := 9,
    status := "pending", message_id := none, rejection_reason := none,
    categories := ["School"] }

/-- Moderation state holding one pending confession by author 9, whose
ledger row holds 0 points; the next channel message id is 100. -/
def c1s0 : ModState :=
  { confessions := [c1conf], points := [(9, 0)], channelPosts := [],
    nextMsgId := 100, userMsgs := [] }

/-- C1 counterexample: approving confession 1 (publish succeeds) and then
rejecting it leaves status rejected while the public message handle is
still set to 100, so a submission whose status later becomes rejected can
retain its public_message_ref, refuting the claimed iff invariant. -/
theorem C1_reject_keeps_ref_cx :
    statusOf (process_rejection (approve_submission true c1s0 1) 1 "too personal") 1 =
      some "rejected"
    ∧ publicRefOf (process_rejection (approve_submission true c1s0 1) 1 "too personal") 1 =
      some (some 100) := by decide

/-- C1 amended: for an existing submission, approval with a failed
publish leaves status approved and the public message handle unchanged
(in particular unset for a pending row), approval with a successful
publish leaves status approved with the handle set to the new channel
message id - but a subsequent rejection flips status to rejected WITHOUT
clearing the handle, so the handle being set is not equivalent to status
being approved. -/
theorem C1_public_ref_amended :
    ∀ (s : ModState) (confId : Nat) (row : Confession) (reason : String),
    findConf s confId = some row →
    (statusOf (approve_submission false s confId) confId = some "approved"
      ∧ publicRefOf (approve_submission false s confId) confId = some row.message_id)
    ∧ (statusOf (approve_submission true s confId) confId = some "approved"
      ∧ publicRefOf (approve_submission true s confId) confId = some (some s.nextMsgId))
    ∧ (statusOf (process_rejection (approve_submission true s confId) confId reason) confId =
        some "rejected"
      ∧ publicRefOf (process_rejection (approve_submission true s confId) confId reason) confId =
        some (some s.nextMsgId)) := by
  intro s confId row reason h
  have hfail := approve_submission_false_of_found s confId row h
  have hfind1 := findConf_approve_true s confId row h
  have hfind2 := findConf_process_rejection (approve_submission true s confId) confId
    _ reason hfind1
  have hfalse : findConf (approve_submission false s confId) confId =
      some { row with status := "approved" } := by
    rw [hfail]
    exact find?_updateConf_some s.confessions confId
      (fun c => { c with status := "approved" }) (fun c => rfl) row h
  refine ⟨⟨?_, ?_⟩, ⟨?_, ?_⟩, ⟨?_, ?_⟩⟩
  · simp [statusOf, hfalse]
  · simp [publicRefOf, hfalse]
  · simp [statusOf, hfind1]
  · simp [publicRefOf, hfind1]
  · simp [statusOf, hfind2]
  · simp [publicRefOf, hfind2]

/-- C1 amended witness: the amended theorem at the concrete one-pending
state c1s0. -/
theorem C1_public_ref_amended_witness :
    (statusOf (approve_submission false c1s0 1) 1 = some "approved"
      ∧ publicRefOf (approve_submission false c1s0 1) 1 = some c1conf.message_id)
    ∧ (statusOf (approve_submission true c1s0 1) 1 = some "approved"
      ∧ publicRefOf (approve_submission true c1s0 1) 1 = some (some 100))
    ∧ (statusOf (process_rejection (approve_submission true c1s0 1) 1 "off topic") 1 =
        some "rejected"
      ∧ publicRefOf (process_rejection (approve_submission true c1s0 1) 1 "off topic") 1 =
        some (some 100)) :=
  C1_public_ref_amended c1s0 1 c1conf "off topic" (by decide)

/-- C2 counterexample: approving the same confession twice emits two
channel posts, credits the author's ledger twice (0 to 2), and sends the
author two approval notices, refuting the claim that a second decision is
an AlreadyDecided no-op with exactly one publication. -/
theorem C2_double_approve_cx :
    (approve_submission true (approve_submission true c1s0 1) 1).channelPosts.length = 2
    ∧ rowsLookup (approve_submission true (approve_submission true c1s0 1) 1).points 9 =
        some 2
    ∧ (approve_submission true (approve_submission true c1s0 1) 1).userMsgs =
        [(9, approvedNotice 1), (9, approvedNotice 1)] := by decide

/-- C2 amended: there is no AlreadyDecided guard - every approve call on
an existing submission publishes again: two successful approve calls add
two channel posts, credit the author's ledger the published-delta twice,
and send two author notices. -/
theorem C2_decide_twice_amended :
    ∀ (s : ModState) (confId : Nat) (row : Confession) (p : Int),
    findConf s confId = some row →
    rowsLookup s.points row.user_id = some p →
    (approve_submission true (approve_submission true s confId) confId).channelPosts.length =
      s.channelPosts.length + 2
    ∧ rowsLookup
        (approve_submission true (approve_submission true s confId) confId).points
        row.user_id =
      some (p + POINTS_PER_CONFESSION + POINTS_PER_CONFESSION)
    ∧ (approve_submission true (approve_submission true s confId) confId).userMsgs.length =
      s.userMsgs.length + 2 := by
  intro s confId row p h hp
  have e1 := approve_submission_true_of_found s confId row h
  have hfind1 := findConf_approve_true s confId row h
  have e2 := approve_submission_true_of_found (approve_submission true s confId) confId
    _ hfind1
  refine ⟨?_, ?_, ?_⟩
  · rw [e2, e1]
    simp
  · rw [e2]
    show rowsLookup (applyDelta (approve_submission true s confId).points
      row.user_id POINTS_PER_CONFESSION) row.user_id = _
    rw [rowsLookup_applyDelta_self, e1]
    show (rowsLookup (applyDelta s.points row.user_id POINTS_PER_CONFESSION)
      row.user_id).map _ = _
    rw [rowsLookup_applyDelta_self, hp]
    rfl
  · rw [e2, e1]
    simp

/-- C2 amended witness: the amended theorem at the concrete one-pending
state c1s0, author 9 holding 0 points. -/
theorem C2_decide_twice_amended_witness :
    (approve_submission true (approve_submission true c1s0 1) 1).channelPosts.length =
      c1s0.channelPosts.length + 2
    ∧ rowsLookup (approve_submission true (approve_submission true c1s0 1) 1).points
        c1conf.user_id =
      some (0 + POINTS_PER_CONFESSION + POINTS_PER_CONFESSION)
    ∧ (approve_submission true (approve_submission true c1s0 1) 1).userMsgs.length =
      c1s0.userMsgs.length + 2 :=
  C2_decide_twice_amended c1s0 1 c1conf 0 (by decide) (by decide)

/-- A row of the comments table (src/main.py lines 126-135); created_at
is represented by list position. -/
structure CommentRow where
  id : Nat
  confession_id : Option Nat
  user_id : Int
  text : Option String
  sticker_file_id : Option String
  animation_file_id : Option String
  parent_comment_id : Option Nat
deriving DecidableEq

/-- SELECT ... FROM comments WHERE id = cid (first row). -/
def findComment (l : List CommentRow) (cid : Nat) : Option CommentRow :=
  l.find? (fun c => decide (c.id = cid))

/-- Line 568: r_type = "like" if r_type == "like" else "dislike". -/
def normalizeKind (raw : String) : String :=
  if raw = "like" then "like" else "dislike"

/-- Line 579: the aura delta of a reaction kind. -/
def kindDelta (rt : String) : Int :=
  if rt = "like" then POINTS_PER_LIKE_RECEIVED else POINTS_PER_DISLIKE_RECEIVED

/-- State touched by the reaction handler: comments, the reactions table
keyed by (comment_id, user_id) as in the UNIQUE constraint of line 152,
and user_points. -/
structure ReactState where
  comments : List CommentRow
  reactions : List ((Nat × Int) × String)
  points : List (Int × Int)
deriving DecidableEq

/-- UPDATE user_points ... WHERE user_id = commenter, where commenter came
from a fetchval that may be NULL (then no row matches). -/
def updateCommenter (points : List (Int × Int)) (commenter : Option Int) (d : Int) :
    List (Int × Int) :=
  match commenter with
  | none => points
  | some u => applyDelta points u d

/-- src/main.py lines 563-594, handle_reactions: toggle-off deletes the
row and subtracts the kind's delta; otherwise an upsert stores the new
kind and ADDS the kind's delta (a flip does not reverse the old delta).
When the comment row is gone the INSERT violates the foreign key of line
149 and the un-caught asyncpg error aborts the handler, modelled as
Except.error. -/
def handleReact (s : ReactState) (cid : Nat) (uid : Int) (raw : String) :
    Except String (ReactState × String) :=
  let rtype := normalizeKind raw
  let existing := rowsLookup s.reactions (cid, uid)
  let commenter := (findComment s.comments cid).map CommentRow.user_id
  let delta := kindDelta rtype
  if existing = some rtype then
    Except.ok ({ s with reactions := rowsDelete s.reactions (cid, uid),
                        points := updateCommenter s.points commenter (-delta) },
               "Reaction removed")
  else if (findComment s.comments cid).isSome then
    Except.ok ({ s with reactions := rowsUpsert s.reactions (cid, uid) rtype,
                        points := updateCommenter s.points commenter delta },
               "You " ++ rtype ++ "d this")
  else
    Except.error "insert or update on table reactions violates foreign key constraint"

/-- The state after a reaction, when the handler did not raise. -/
def reactOutcome (s : ReactState) (cid : Nat) (uid : Int) (raw : String) :
    Option ReactState :=
  match handleReact s cid uid raw with
  | Except.ok (s2, _) => some s2
  | Except.error _ => none

/-- The callback answer of a reaction, when the handler did not raise. -/
def reactMsg (s : ReactState) (cid : Nat) (uid : Int) (raw : String) :
    Option String :=
  match handleReact s cid uid raw with
  | Except.ok (_, m) => some m
  | Except.error _ => none

/-- The storage error of a reaction, when the handler raised. -/
def reactError (s : ReactState) (cid : Nat) (uid : Int) (raw : String) :
    Option String :=
  match handleReact s cid uid raw with
  | Except.ok _ => none
  | Except.error e => some e

/-- Sum of the deltas of the currently active reactions on comments
authored by the given user. -/
def activeDeltaSum (s : ReactState) (author : Int) : Int :=
  ((s.reactions.filter (fun r =>
      decide ((findComment s.comments r.1.1).map CommentRow.user_id = some author))).map
    (fun r => kindDelta r.2)).sum

/-- Comment 1 authored by user 9, used by the reaction counterexample. -/
def c3comment : CommentRow :=
  { id := 1, confession_id := some 1, user_id := 9, text := some "nice take",
    sticker_file_id := none, animation_file_id := none, parent_comment_id := none }

/-- No reaction yet; author 9 holds 0 points. -/
def c3s0 : ReactState :=
  { comments := [c3comment], reactions := [], points := [(9, 0)] }

/-- After user 2 likes comment 1. -/
def c3s1 : ReactState :=
  { comments := [c3comment], reactions := [((1, 2), "like")], points := [(9, 3)] }

/-- After user 2 flips the like to a dislike. -/
def c3s2 : ReactState :=
  { comments := [c3comment], reactions := [((1, 2), "dislike")], points := [(9, 0)] }

/-- C3 counterexample: user 2 likes comment 1 (author 9 goes 0 to 3), then
flips to dislike; the code stores the dislike but only ADDS its delta
(3 - 3 = 0) instead of reversing the like first, so the author's balance
0 differs from the sum -3 of the deltas of the active reactions; the
claimed net-delta flip semantics is refuted. -/
theorem C3_flip_cx :
    reactOutcome c3s0 1 2 "like" = some c3s1
    ∧ reactMsg c3s0 1 2 "like" = some "You liked this"
    ∧ reactOutcome c3s1 1 2 "dis" = some c3s2
    ∧ reactMsg c3s1 1 2 "dis" = some "You disliked this"
    ∧ rowsLookup c3s2.points 9 = some 0
    ∧ activeDeltaSum c3s2 9 = -3
    ∧ ¬ (0 : Int) = -3 := by decide

/-- C3 amended: per (comment, user) pair at most one reaction row exists
after a react call, re-submitting the same kind deletes the row and
reverses its delta, but any other call (first reaction OR a flip from the
opposite kind) stores the new kind and adds ONLY the new kind's delta -
on a flip the old delta is not reversed, so the balance can disagree with
the sum of the active reaction deltas. -/
theorem C3_react_amended :
    ∀ (s : ReactState) (cid : Nat) (uid : Int) (raw : String) (c0 : CommentRow)
      (p : Int),
    findComment s.comments cid = some c0 →
    rowsLookup s.points c0.user_id = some p →
    countKey s.reactions (cid, uid) ≤ 1 →
    (rowsLookup s.reactions (cid, uid) = some (normalizeKind raw) →
      (reactOutcome s cid uid raw).map (fun s2 =>
        (rowsLookup s2.reactions (cid, uid), countKey s2.reactions (cid, uid),
         rowsLookup s2.points c0.user_id)) =
        some (none, 0, some (p - kindDelta (normalizeKind raw))))
    ∧ (¬ rowsLookup s.reactions (cid, uid) = some (normalizeKind raw) →
      (reactOutcome s cid uid raw).map (fun s2 =>
        (rowsLookup s2.reactions (cid, uid), countKey s2.reactions (cid, uid),
         rowsLookup s2.points c0.user_id)) =
        some (some (normalizeKind raw), 1, some (p + kindDelta (normalizeKind raw)))) := by
  intro s cid uid raw c0 p hc hp huniq
  constructor
  · intro hex
    simp [reactOutcome, handleReact, hex, hc, updateCommenter,
          rowsLookup_rowsDelete_self, countKey_rowsDelete_self,
          rowsLookup_applyDelta_self, hp, sub_eq_add_neg]
  · intro hex
    simp [reactOutcome, handleReact, hex, hc, updateCommenter,
          rowsLookup_rowsUpsert_self,
          countKey_rowsUpsert_self s.reactions (cid, uid) (normalizeKind raw) huniq,
          rowsLookup_applyDelta_self, hp]

/-- C3 amended witness: both branches of the amended theorem at the
concrete state where user 2 already likes comment 1 (author 9 holds 3
points): toggling off, and flipping to dislike. -/
theorem C3_react_amended_witness :
    (reactOutcome c3s1 1 2 "like").map (fun s2 =>
      (rowsLookup s2.reactions (1, 2), countKey s2.reactions (1, 2),
       rowsLookup s2.points 9)) =
      some (none, 0, some (3 - kindDelta (normalizeKind "like")))
    ∧ (reactOutcome c3s1 1 2 "dis").map (fun s2 =>
      (rowsLookup s2.reactions (1, 2), countKey s2.reactions (1, 2),
       rowsLookup s2.points 9)) =
      some (some (normalizeKind "dis"), 1, some (3 + kindDelta (normalizeKind "dis"))) :=
  ⟨(C3_react_amended c3s1 1 2 "like" c3comment 3 (by decide) (by decide)
      (by decide)).1 (by decide),
   (C3_react_amended c3s1 1 2 "dis" c3comment 3 (by decide) (by decide)
      (by decide)).2 (by decide)⟩

/-- src/main.py lines 629-642, process_reply: the parent's confession_id
is read with fetchval (NULL when the parent row is gone), and the reply
row is inserted unconditionally; parent_comment_id has no foreign key
(line 133), so the insert succeeds and the handler reports success even
for a deleted parent. -/
def process_reply (comments : List CommentRow) (nextId : Nat) (parentCid : Nat)
    (uid : Int) (txt : String) : List CommentRow × String :=
  let confId := (findComment comments parentCid).bind CommentRow.confession_id
  (comments ++
    [{ id := nextId, confession_id := confId, user_id := uid, text := some txt,
       sticker_file_id := none, animation_file_id := none,
       parent_comment_id := some parentCid }],
   "Reply posted!")

/-- Empty discussion state. -/
def emptyReactState : ReactState := ⟨[], [], []⟩

/-- C7 counterexample: reacting to the nonexistent comment 5 makes the
handler raise a foreign-key storage error (a crash, not a not-found
notice), and replying to the nonexistent comment 99 silently inserts a
comment row with a NULL confession reference and a dangling parent
reference while answering success - refuting both the no-crash and the
no-dangling-write parts of the claim. -/
theorem C7_stale_payload_cx :
    reactError emptyReactState 5 2 "like" =
      some "insert or update on table reactions violates foreign key constraint"
    ∧ reactOutcome emptyReactState 5 2 "like" = none
    ∧ findComment ([] : List CommentRow) 99 = none
    ∧ process_reply [] 1 99 7 "hello there" =
        ([{ id := 1, confession_id := none, user_id := 7, text := some "hello there",
            sticker_file_id := none, animation_file_id := none,
            parent_comment_id := some 99 }], "Reply posted!") := by decide

/-- C7 amended: a button payload referencing a deleted or nonexistent
comment is NOT resolved as a not-found no-op: reacting raises an
un-caught foreign-key storage error (no state change, no notice), and
replying inserts a reply row whose confession reference is NULL and whose
parent reference dangles, reporting success to the user. -/
theorem C7_stale_payload_amended :
    (∀ (s : ReactState) (cid : Nat) (uid : Int) (raw : String),
      findComment s.comments cid = none →
      rowsLookup s.reactions (cid, uid) = none →
      reactError s cid uid raw =
        some "insert or update on table reactions violates foreign key constraint"
      ∧ reactOutcome s cid uid raw = none)
    ∧ (∀ (comments : List CommentRow) (nextId pcid : Nat) (uid : Int) (txt : String),
      findComment comments pcid = none →
      process_reply comments nextId pcid uid txt =
        (comments ++
          [{ id := nextId, confession_id := none, user_id := uid, text := some txt,
             sticker_file_id := none, animation_file_id := none,
             parent_comment_id := some pcid }],
         "Reply posted!")) := by
  constructor
  · intro s cid uid raw h1 h2
    constructor
    · simp [reactError, handleReact, h1, h2]
    · simp [reactOutcome, handleReact, h1, h2]
  · intro comments nextId pcid uid txt h
    simp [process_reply, h]

/-- C7 amended witness: both branches of the amended theorem at concrete
stale payloads. -/
theorem C7_stale_payload_amended_witness :
    (reactError emptyReactState 3 4 "dis" =
      some "insert or update on table reactions violates foreign key constraint"
    ∧ reactOutcome emptyReactState 3 4 "dis" = none)
    ∧ process_reply [] 2 55 8 "another reply" =
        ([{ id := 2, confession_id := none, user_id := 8, text := some "another reply",
            sticker_file_id := none, animation_file_id := none,
            parent_comment_id := some 55 }], "Reply posted!") :=
  ⟨C7_stale_payload_amended.1 emptyReactState 3 4 "dis" (by decide) (by decide),
   C7_stale_payload_amended.2 [] 2 55 8 "another reply" (by decide)⟩

/-- src/main.py lines 396-401, cmd_warn: a bare -50 ledger UPDATE. -/
def cmd_warn_points (points : List (Int × Int)) (target : Int) : List (Int × Int) :=
  applyDelta points target (-50)

/-- src/main.py lines 650-655, admin_delete_comment: a bare -20 ledger
UPDATE on the comment author. -/
def admin_delete_comment_points (points : List (Int × Int)) (target : Int) :
    List (Int × Int) :=
  applyDelta points target (-20)

/-- src/main.py lines 801-806, cmd_start: INSERT (user_id, 0) ON CONFLICT
DO NOTHING - the only place a ledger row is created. -/
def cmd_start_points (points : List (Int × Int)) (uid : Int) : List (Int × Int) :=
  if (rowsLookup points uid).isSome then points else points ++ [(uid, 0)]

/-- Confession 3 by author 11, who has no ledger row. -/
def c10conf : Confession :=
  { id := 3, text := "another confession", user_id := 11, status := "pending",
    message_id := none, rejection_reason := none, categories := ["Family"] }

/-- State for the C10 witness: author 11 has no user_points row. -/
def c10state : ModState :=
  { confessions := [c10conf], points := [(9, 0)], channelPosts := [],
    nextMsgId := 7, userMsgs := [] }

/-- C10: every ledger delta other than initial registration (warn
penalty, comment-deletion penalty, reaction deltas, publication credit)
is a bare UPDATE of the points row; when the target user has no row the
table is unchanged and the delta is silently lost, and a (0-point) row is
created only by the start command's insert-on-conflict-do-nothing. -/
theorem C10_ledger_update_semantics :
    (∀ (points : List (Int × Int)) (uid d : Int),
      rowsLookup points uid = none →
      applyDelta points uid d = points
      ∧ cmd_warn_points points uid = points
      ∧ admin_delete_comment_points points uid = points
      ∧ updateCommenter points (some uid) d = points
      ∧ cmd_start_points points uid = points ++ [(uid, 0)]
      ∧ rowsLookup (cmd_start_points points uid) uid = some 0)
    ∧ (∀ (points : List (Int × Int)) (uid v : Int),
      rowsLookup points uid = some v → cmd_start_points points uid = points)
    ∧ (∀ (s : ModState) (confId : Nat) (row : Confession),
      findConf s confId = some row →
      rowsLookup s.points row.user_id = none →
      (approve_submission true s confId).points = s.points) := by
  refine ⟨?_, ?_, ?_⟩
  · intro points uid d h
    refine ⟨applyDelta_of_lookup_none _ _ _ h, applyDelta_of_lookup_none _ _ _ h,
            applyDelta_of_lookup_none _ _ _ h, applyDelta_of_lookup_none _ _ _ h,
            ?_, ?_⟩
    · simp [cmd_start_points, h]
    · simp only [cmd_start_points, h, Option.isSome_none, Bool.false_eq_true, if_false]
      rw [rowsLookup_append_of_none _ _ _ h]
      simp [rowsLookup]
  · intro points uid v h
    simp [cmd_start_points, h]
  · intro s confId row h hp
    rw [approve_submission_true_of_found s confId row h]
    exact applyDelta_of_lookup_none _ _ _ hp

/-- C10 witness: concrete ledger [(7, 5)]: deltas aimed at the absent
user 3 are lost, start creates (3, 0) exactly once, and approving a
confession whose author has no ledger row leaves the ledger unchanged. -/
theorem C10_ledger_update_semantics_witness :
    (applyDelta [((7 : Int), (5 : Int))] 3 11 = [(7, 5)]
     ∧ cmd_warn_points [((7 : Int), (5 : Int))] 3 = [(7, 5)]
     ∧ admin_delete_comment_points [((7 : Int), (5 : Int))] 3 = [(7, 5)]
     ∧ updateCommenter [((7 : Int), (5 : Int))] (some 3) 11 = [(7, 5)]
     ∧ cmd_start_points [((7 : Int), (5 : Int))] 3 = [(7, 5)] ++ [(3, 0)]
     ∧ rowsLookup (cmd_start_points [((7 : Int), (5 : Int))] 3) 3 = some 0)
    ∧ cmd_start_points [((7 : Int), (5 : Int))] 7 = [(7, 5)]
    ∧ (approve_submission true c10state 3).points = c10state.points :=
  ⟨C10_ledger_update_semantics.1 [((7 : Int), (5 : Int))] 3 11 (by decide),
   C10_ledger_update_semantics.2.1 [((7 : Int), (5 : Int))] 7 5 (by decide),
   C10_ledger_update_semantics.2.2 c10state 3 c10conf (by decide) (by decide)⟩

/-- Line 319: offset = (page - 1) * PAGE_SIZE. -/
def pageOffset (page : Int) : Int := (page - 1) * (PAGE_SIZE : Int)

/-- The LIMIT PAGE_SIZE OFFSET offset query of lines 322-329 on the
creation-ordered comments of one confession.  Postgres rejects a negative
OFFSET, modelled as Except.error; there is no clamping of the page. -/
def fetchCommentsPage {α : Type} (comments : List α) (page : Int) :
    Except String (List α) :=
  if pageOffset page < 0 then Except.error "OFFSET must not be negative"
  else Except.ok ((comments.drop (pageOffset page).toNat).take PAGE_SIZE)

/-- ceil(total / PAGE_SIZE), the page count of the spec. -/
def pageCount (total : Nat) : Nat := (total + PAGE_SIZE - 1) / PAGE_SIZE

/-- COALESCE(up.points, 0) of the LEFT JOIN on line 323. -/
def commentPts (points : List (Int × Int)) (uid : Int) : Int :=
  (rowsLookup points uid).getD 0

/-- Lines 340-345: relationship tag of a comment (emoji elided). -/
def commentTag (commenter viewer owner : Int) : String :=
  if commenter = owner then "Author"
  else if commenter = viewer then "You"
  else "Anonymous"

/-- Line 349 metadata: ordinal, tag, points, title, and the commenter id
for the admin viewer.  Nothing here reads parent_comment_id. -/
def commentMeta (seq : Nat) (c : CommentRow) (pts : Int)
    (viewer owner adminId : Int) : String :=
  "#" ++ toString seq ++ " " ++ commentTag c.user_id viewer owner ++ " | " ++
    toString pts ++ " " ++ get_reputation_title pts ++
    (if viewer = adminId then " | ID: " ++ toString c.user_id else "")

/-- Lines 353-358: the message sent for one comment (text body plus
metadata, or metadata alone for sticker comments). -/
def renderComment (seq : Nat) (c : CommentRow) (pts : Int)
    (viewer owner adminId : Int) : String :=
  match c.text with
  | some t => t ++ "\n\n" ++ commentMeta seq c pts viewer owner adminId
  | none => commentMeta seq c pts viewer owner adminId

/-- src/main.py lines 310-372, show_comments_for_confession: availability
gate, page fetch, the empty-page-1 notice, one message per comment of the
slice with seq = offset + i + 1, and the load-more affordance.  conf is
the fetched (user_id, status) row of the confession.  The result is the
ordered list of messages the viewer receives. -/
def show_comments_for_confession (conf : Option (Int × String))
    (comments : List CommentRow) (points : List (Int × Int)) (viewer : Int)
    (page : Int) (adminId : Int) : Except String (List String) :=
  match conf with
  | none => Except.ok ["This confession is no longer available."]
  | some (owner, status) =>
    if status = "approved" then
      match fetchCommentsPage comments page with
      | Except.error e => Except.error e
      | Except.ok slice =>
        if slice.isEmpty && page == 1 then
          Except.ok ["No comments yet. Be the first to start the conversation!"]
        else
          let offset := (pageOffset page).toNat
          let msgs := slice.enum.map (fun ic =>
            renderComment (offset + ic.1 + 1) ic.2
              (commentPts points ic.2.user_id) viewer owner adminId)
          if pageOffset page + (PAGE_SIZE : Int) < (comments.length : Int) then
            Except.ok (msgs ++ ["There are more comments below:"])
          else Except.ok msgs
    else Except.ok ["This confession is no longer available."]

/-- The delivered list when the engine did not raise. -/
def pageOk {α : Type} (r : Except String (List α)) : Option (List α) :=
  match r with
  | Except.ok l => some l
  | Except.error _ => none

lemma fetchCommentsPage_overflow {α : Type} (l : List α) (page : Int)
    (h1 : 1 ≤ page) (h2 : (pageCount l.length : Int) < page) :
    fetchCommentsPage l page = Except.ok [] := by
  have hoff : ¬ pageOffset page < 0 := by
    simp only [pageOffset, PAGE_SIZE]
    omega
  have hlen : l.length ≤ (pageOffset page).toNat := by
    simp only [pageOffset, PAGE_SIZE]
    simp only [pageCount, PAGE_SIZE] at h2
    omega
  unfold fetchCommentsPage
  rw [if_neg hoff, List.drop_eq_nil_of_le hlen]
  rfl

/-- The 37 creation-ordered comment stand-ins 1..37 of the spec example. -/
def c5comments : List Nat := (List.range 37).map (fun i => i + 1)

/-- A plain text comment by user 50. -/
def simpleComment (i : Nat) : CommentRow :=
  { id := i, confession_id := some 1, user_id := 50,
    text := some ("c" ++ toString i), sticker_file_id := none,
    animation_file_id := none, parent_comment_id := none }

/-- 37 stored comment rows for the pagination counterexample. -/
def c5rows : List CommentRow := (List.range 37).map (fun i => simpleComment (i + 1))

/-- C5 counterexample: with 37 comments, page 1 is comments 1-15 and
page 3 is comments 31-37, but page 4 is NOT clamped to page 3's result -
the query returns the empty slice and the viewer receives no messages at
all. -/
theorem C5_no_clamp_cx :
    pageOk (fetchCommentsPage c5comments 1) =
      some [1, 2, 3, 4, 5, 6, 7, 8, 9, 10, 11, 12, 13, 14, 15]
    ∧ pageOk (fetchCommentsPage c5comments 3) = some [31, 32, 33, 34, 35, 36, 37]
    ∧ pageOk (fetchCommentsPage c5comments 4) = some []
    ∧ ¬ (([] : List Nat) = [31, 32, 33, 34, 35, 36, 37])
    ∧ pageOk (show_comments_for_confession (some (8, "approved")) c5rows [] 7 4 9) =
        some [] := by decide

/-- C5 amended: valid pages return their slice (with 37 comments page 1
is comments 1-15 and page 3 is comments 31-37), but a requested page
beyond the page count is not clamped: the engine returns the empty slice
and renders nothing (and a page below 1 is a storage error), so page 4 of
37 comments yields no messages instead of page 3's result. -/
theorem C5_pagination_amended :
    (∀ (α : Type) (l : List α) (page : Int), 1 ≤ page →
      (pageCount l.length : Int) < page → fetchCommentsPage l page = Except.ok [])
    ∧ (∀ (α : Type) (l : List α) (page : Int), page < 1 →
      fetchCommentsPage l page = Except.error "OFFSET must not be negative")
    ∧ pageOk (fetchCommentsPage c5comments 1) =
        some [1, 2, 3, 4, 5, 6, 7, 8, 9, 10, 11, 12, 13, 14, 15]
    ∧ pageOk (fetchCommentsPage c5comments 3) = some [31, 32, 33, 34, 35, 36, 37]
    ∧ pageOk (fetchCommentsPage c5comments 4) = some []
    ∧ pageOk (show_comments_for_confession (some (8, "approved")) c5rows [] 7 4 9) =
        some [] := by
  refine ⟨fun α l page h1 h2 => fetchCommentsPage_overflow l page h1 h2,
    fun α l page h => ?_, ?_, ?_, ?_, ?_⟩
  · have hneg : pageOffset page < 0 := by
      simp only [pageOffset, PAGE_SIZE]
      omega
    simp [fetchCommentsPage, hneg]
  · decide
  · decide
  · decide
  · decide

/-- C5 amended witness: the overflow clause of the amended theorem at the
concrete 37-comment list and page 5, and the negative-OFFSET error clause
at page 0. -/
theorem C5_pagination_amended_witness :
    fetchCommentsPage c5comments 5 = Except.ok []
    ∧ fetchCommentsPage c5comments 0 =
        Except.error "OFFSET must not be negative" :=
  ⟨C5_pagination_amended.1 Nat c5comments 5 (by decide) (by decide),
   C5_pagination_amended.2.1 Nat c5comments 0 (by decide)⟩

/-- 20 stored comments; comment 20 replies to comment 5. -/
def c4comment (i : Nat) : CommentRow :=
  if i = 20 then { simpleComment i with parent_comment_id := some 5 }
  else simpleComment i

/-- The comment table for the cross-page threading counterexample. -/
def c4rows : List CommentRow := (List.range 20).map (fun i => c4comment (i + 1))

/-- C4 counterexample: comment 20 (page 2 under PAGE_SIZE = 15) replies
to comment 5 (page 1), yet the rendered page-2 messages carry no
threading annotation whatsoever - no "replying" text and no reference to
comment 5 - so the cross-page parent resolution of the claim does not
exist in the code. -/
theorem C4_threading_cx :
    (c4comment 20).parent_comment_id = some 5
    ∧ pageOk (fetchCommentsPage c4rows 2) =
        some [c4comment 16, c4comment 17, c4comment 18, c4comment 19, c4comment 20]
    ∧ pageOk (show_comments_for_confession (some (8, "approved")) c4rows [] 7 2 9) =
        some ["c16\n\n#16 Anonymous | 0 Newbie", "c17\n\n#17 Anonymous | 0 Newbie",
              "c18\n\n#18 Anonymous | 0 Newbie", "c19\n\n#19 Anonymous | 0 Newbie",
              "c20\n\n#20 Anonymous | 0 Newbie"]
    ∧ ¬ ("replying".data <:+: "c20\n\n#20 Anonymous | 0 Newbie".data)
    ∧ ¬ ("#5".data <:+: "c20\n\n#20 Anonymous | 0 Newbie".data) := by decide

/-- C4 amended: each listed comment is rendered with only its own
ordinal, relationship tag, points and title (plus the raw id for the
admin viewer); the renderer ignores parent_comment_id entirely, so a
reply - whether its parent is on the rendered page or not - carries no
"replying to comment #N" context. -/
theorem C4_render_amended :
    (∀ (seq : Nat) (c : CommentRow) (pp : Option Nat) (pts : Int)
      (viewer owner adminId : Int),
      renderComment seq { c with parent_comment_id := pp } pts viewer owner adminId =
        renderComment seq c pts viewer owner adminId)
    ∧ pageOk (show_comments_for_confession (some (8, "approved")) c4rows [] 7 2 9) =
        some ["c16\n\n#16 Anonymous | 0 Newbie", "c17\n\n#17 Anonymous | 0 Newbie",
              "c18\n\n#18 Anonymous | 0 Newbie", "c19\n\n#19 Anonymous | 0 Newbie",
              "c20\n\n#20 Anonymous | 0 Newbie"] := by
  constructor
  · intro seq c pp pts viewer owner adminId
    rfl
  · decide

end Confessions
